import Mathlib

/-!
Verification of the Tai-e assignment helper CLI (scripts/helper.py).

The script is shallowly embedded: the filesystem is a map from path strings
to optional file contents, external effects (git calls, subprocess runs,
interactive input, copy success) are oracles passed as parameters, and
each command returns a record of its observable effects (exit status,
archive written, counters, which diagnostics were printed).
-/

set_option autoImplicit false

namespace Helper

/-- User configuration as stored in scripts/config.json. -/
structure Config where
  student_id : String
  student_name : String
  workspace_root : String
deriving Repr, DecidableEq

/-- One dependency entry of an assignment: a file copied from a previous
assignment (`from` in the JSON metadata; named `from_` here since `from`
is reserved). -/
structure Dependency where
  from_ : String
  file : String
deriving Repr, DecidableEq

/-- Metadata record for one assignment. -/
structure AssignmentInfo where
  name : String
  files_to_submit : List String
  dependencies : List Dependency
deriving Repr, DecidableEq

/-- The metadata file: a mapping from assignment id to its info, modelled
as an association list. -/
abbrev Metadata := List (String × AssignmentInfo)

/-- Lookup of an assignment id in the metadata mapping. -/
def lookupA (md : Metadata) (assignment : String) : Option AssignmentInfo :=
  match md with
  | [] => none
  | (k, v) :: rest => if k = assignment then some v else lookupA rest assignment

/-- The filesystem: maps a path string to the file's contents, `none`
when the path does not exist. -/
abbrev FS := String → Option String

/-- `AssignmentHelper.get_assignment_dir`: `root / assignment / "tai-e"`. -/
def assignmentDir (root assignment : String) : String :=
  root ++ "/" ++ assignment ++ "/tai-e"

/-- Python's `str.strip()`: drop whitespace from both ends (implemented
over the character list so that it evaluates in the kernel). -/
def pyStrip (s : String) : String :=
  ⟨((s.data.dropWhile Char.isWhitespace).reverse.dropWhile Char.isWhitespace).reverse⟩

/-- Python's `str.lower()` (ASCII case folding suffices here). -/
def pyLower (s : String) : String :=
  ⟨s.data.map Char.toLower⟩

/-- Boolean prefix test on character lists. -/
def isPrefixList : List Char → List Char → Bool
  | [], _ => true
  | _ :: _, [] => false
  | a :: as, b :: bs => a == b && isPrefixList as bs

/-- Python's `s.startswith(pre)`. -/
def pyStartsWith (s pre : String) : Bool :=
  isPrefixList pre.data s.data

/-- Split a character list at every occurrence of `sep`. -/
def splitCharList (sep : Char) : List Char → List (List Char)
  | [] => [[]]
  | c :: rest =>
    let r := splitCharList sep rest
    if c = sep then [] :: r
    else
      match r with
      | [] => [[c]]
      | h :: t => (c :: h) :: t

/-- Python's `s.split(sep)` for a one-character separator. -/
def splitChar (sep : Char) (s : String) : List String :=
  (splitCharList sep s.data).map (fun l => ⟨l⟩)

/-- Join strings with a separator (inverse of `splitChar`). -/
def joinWith (sep : String) : List String → String
  | [] => ""
  | [x] => x
  | x :: xs => x ++ sep ++ joinWith sep xs

/-- `os.path.basename` on a relative path with `/` separators: the part
after the last separator. -/
def basename (p : String) : String :=
  (splitChar '/' p).getLastD p

/-- Observable effects of one `package` run. `archiveWritten` is the zip
file's name together with its entries, each entry an (archive name,
content) pair in write order; `none` when no archive was written. -/
structure PackageResult where
  exit : Option Nat
  outputDirCreated : Bool
  printedValidIds : Bool
  archiveWritten : Option (String × List (String × String))
deriving Repr, DecidableEq

/-- `cmd_package` (helper.py lines 411-475). `config?` / `metadata?` are
`none` when the respective JSON file is absent (then `load_config` /
`load_metadata` exit with status 1). The output directory is created
(line 429) before the submission files are checked; if any file is
missing the command exits 1 without touching the zip path; otherwise the
zip is written with each file under its base name. -/
def cmd_package (config? : Option Config) (metadata? : Option Metadata)
    (fs : FS) (root assignment : String) : PackageResult :=
  match config? with
  | none => ⟨some 1, false, false, none⟩
  | some config =>
    match metadata? with
    | none => ⟨some 1, false, false, none⟩
    | some metadata =>
      match lookupA metadata assignment with
      | none => ⟨some 1, false, false, none⟩
      | some info =>
        let adir := assignmentDir root assignment
        let checks := info.files_to_submit.map (fun rel => (rel, fs (adir ++ "/" ++ rel)))
        let missing := (checks.filter (fun p => p.2.isNone)).map Prod.fst
        if missing.isEmpty then
          let files_to_package := checks.filterMap (fun p => p.2.map (fun c => (p.1, c)))
          let zip_filename :=
            config.student_id ++ "-" ++ config.student_name ++ "-" ++ assignment ++ ".zip"
          ⟨none, true, false,
            some (zip_filename, files_to_package.map (fun p => (basename p.1, p.2)))⟩
        else
          ⟨some 1, true, false, none⟩

/-- Result of `check_git_status`: the dictionary it returns, with optional
commit / time / message fields. -/
structure GitStatus where
  status : String
  commit : Option String := none
  time : Option String := none
  message : Option String := none
deriving Repr, DecidableEq

/-- Python's `s.split(sep, 2)` with at most two splits: at most three
parts, the last keeping any further separators. -/
def splitMax2 (sep : Char) (s : String) : List String :=
  match splitChar sep s with
  | a :: b :: c :: rest => [a, b, joinWith (String.singleton sep) (c :: rest)]
  | xs => xs

/-- The relative-age string of the fallback path: `days_ago` is the `.days`
field of the timedelta, an integer (negative when the mtime lies in the
future). -/
def relAgeStr (days_ago : Int) : String :=
  if days_ago = 0 then "today"
  else if days_ago = 1 then "yesterday"
  else toString days_ago ++ " days ago"

/-- The `except` branch of `check_git_status` (helper.py lines 138-152):
fall back to the file's modification time. -/
def gitFallback (fileExists : Bool) (days_ago : Int) : GitStatus :=
  if fileExists then { status := "unknown", time := some (relAgeStr days_ago) }
  else { status := "unknown" }

/-- `check_git_status` (helper.py lines 96-152). `statusRun` is the stdout
of `git status --porcelain <file>` (`none` when that call raises —
git absent, subprocess error, or 5 s timeout); `logRun` likewise for
`git log -1 --format=%h|%cr|%s -- <file>`; since both calls sit in one
`try`, a raising log call also lands in the fallback. `fileExists` and
`days_ago` feed the fallback path. -/
def check_git_status (statusRun logRun : Option String)
    (fileExists : Bool) (days_ago : Int) : GitStatus :=
  match statusRun with
  | none => gitFallback fileExists days_ago
  | some out =>
    let status := pyStrip out
    if status = "" then { status := "unmodified" }
    else if pyStartsWith status " M" || pyStartsWith status "M " then
      match logRun with
      | none => gitFallback fileExists days_ago
      | some logOut =>
        if pyStrip logOut ≠ "" then
          match splitMax2 '|' (pyStrip logOut) with
          | [a, b, c] => { status := "modified", commit := some a,
                           time := some b, message := some c }
          | _ => { status := "modified" }
        else { status := "modified" }
    else if pyStartsWith status "??" then { status := "untracked" }
    else { status := "unknown" }

/-- Observable effects of one `config` run. -/
structure ConfigResult where
  exit : Option Nat
  saved : Option Config
  promptId : String
  promptName : String
deriving Repr, DecidableEq

/-- `cmd_config` (helper.py lines 154-192). `existing?` is the prior
config file's (student_id, student_name) fields when it exists (absent
keys default to the empty string, so they are plain strings here);
`idInput` / `nameInput` are the two interactive answers. -/
def cmd_config (existing? : Option (String × String)) (root : String)
    (idInput nameInput : String) : ConfigResult :=
  let default_id := ((existing?.map Prod.fst).getD "")
  let default_name := ((existing?.map Prod.snd).getD "")
  let promptId :=
    if default_id ≠ "" then "Student ID [" ++ default_id ++ "]: " else "Student ID: "
  let promptName :=
    if default_name ≠ "" then "Student Name [" ++ default_name ++ "]: " else "Student Name: "
  let sid0 := pyStrip idInput
  let student_id := if sid0 = "" ∧ default_id ≠ "" then default_id else sid0
  let sname0 := pyStrip nameInput
  let student_name := if sname0 = "" ∧ default_name ≠ "" then default_name else sname0
  if student_id = "" ∨ student_name = "" then
    ⟨some 1, none, promptId, promptName⟩
  else
    ⟨none, some ⟨student_id, student_name, root⟩, promptId, promptName⟩

/-- Observable effects of one `info` run. -/
structure InfoResult where
  exit : Option Nat
  printedValidIds : Bool
deriving Repr, DecidableEq

/-- `cmd_info` (helper.py lines 214-241): on an unknown assignment id it
prints the sorted list of valid ids and exits 1. -/
def cmd_info (metadata? : Option Metadata) (assignment : String) : InfoResult :=
  match metadata? with
  | none => ⟨some 1, false⟩
  | some metadata =>
    match lookupA metadata assignment with
    | none => ⟨some 1, true⟩
    | some _ => ⟨none, false⟩

/-- Environment oracles for `cmd_setup`: path existence, the git status a
`check_git_status` call on a target path would return, and whether the
mkdir-and-`shutil.copy2` block for a target path succeeds (`false` = it
raises, caught per file). -/
structure SetupEnv where
  pathExists : String → Bool
  gitStatus : String → GitStatus
  copyOk : String → Bool

/-- Per-entry outcome of one dependency in `cmd_setup`, mirroring the
status line printed for it. -/
inductive SetupStep where
  | copied
  | skipped
  | srcMissing
  | copyFailed
  | quit
deriving Repr, DecidableEq

/-- What the interactive prompt resolves to for one modified target file. -/
inductive SetupChoice where
  | quit
  | overwriteAll
  | overwriteOne
  | skip
deriving Repr, DecidableEq

/-- Decode of `input().lower().strip()` against the y / n / a / q menu
(helper.py lines 308-321): `q` quits, `a` sets force-all and copies,
anything other than `y` skips, `y` copies. -/
def decodeChoice (raw : String) : SetupChoice :=
  let choice := pyStrip (pyLower raw)
  if choice = "q" then .quit
  else if choice = "a" then .overwriteAll
  else if choice ≠ "y" then .skip
  else .overwriteOne

/-- Observable effects of one `setup` run: exit status (`some 0` after a
quit choice, `some 1` on missing metadata or invalid assignment), the
Copied and Skipped counters of the final summary, the per-entry status
lines in order, and whether the valid-id list was printed. -/
structure SetupResult where
  exit : Option Nat
  copied : Nat
  skipped : Nat
  steps : List SetupStep
  printedValidIds : Bool
deriving Repr, DecidableEq

/-- The dependency loop of `cmd_setup` (helper.py lines 267-335).
`inputs` is the stream of interactive answers, consumed one per prompt;
`force_all` starts as the `--force` flag and is switched on by an `a`
answer. A missing source file or a raising copy is reported and counted
in neither counter; a `q` answer exits with status 0 at once, so the
remaining entries contribute nothing. -/
def setupLoop (env : SetupEnv) (root targetDir : String) :
    List Dependency → List String → Bool → SetupResult
  | [], _, _ => ⟨none, 0, 0, [], false⟩
  | dep :: rest, inputs, force_all =>
    let source_file := assignmentDir root dep.from_ ++ "/" ++ dep.file
    let target_file := targetDir ++ "/" ++ dep.file
    if env.pathExists source_file then
      let target_exists := env.pathExists target_file
      let is_modified := target_exists && (env.gitStatus target_file).status == "modified"
      let prompted := is_modified && !force_all
      let choice := if prompted then decodeChoice (inputs.headD "") else .overwriteOne
      let inputs' := if prompted then inputs.tail else inputs
      match choice with
      | .quit => ⟨some 0, 0, 0, [.quit], false⟩
      | .skip =>
        let r := setupLoop env root targetDir rest inputs' force_all
        ⟨r.exit, r.copied, r.skipped + 1, .skipped :: r.steps, r.printedValidIds⟩
      | .overwriteAll =>
        if env.copyOk target_file then
          let r := setupLoop env root targetDir rest inputs' true
          ⟨r.exit, r.copied + 1, r.skipped, .copied :: r.steps, r.printedValidIds⟩
        else
          let r := setupLoop env root targetDir rest inputs' true
          ⟨r.exit, r.copied, r.skipped, .copyFailed :: r.steps, r.printedValidIds⟩
      | .overwriteOne =>
        if env.copyOk target_file then
          let r := setupLoop env root targetDir rest inputs' force_all
          ⟨r.exit, r.copied + 1, r.skipped, .copied :: r.steps, r.printedValidIds⟩
        else
          let r := setupLoop env root targetDir rest inputs' force_all
          ⟨r.exit, r.copied, r.skipped, .copyFailed :: r.steps, r.printedValidIds⟩
    else
      let r := setupLoop env root targetDir rest inputs force_all
      ⟨r.exit, r.copied, r.skipped, .srcMissing :: r.steps, r.printedValidIds⟩

/-- `cmd_setup` (helper.py lines 243-341): loads metadata (exit 1 if the
file is absent), rejects an unknown assignment id with exit 1 printing
only the invalid-assignment line, then runs the dependency loop. -/
def cmd_setup (metadata? : Option Metadata) (env : SetupEnv)
    (root assignment : String) (force : Bool) (inputs : List String) : SetupResult :=
  match metadata? with
  | none => ⟨some 1, 0, 0, [], false⟩
  | some metadata =>
    match lookupA metadata assignment with
    | none => ⟨some 1, 0, 0, [], false⟩
    | some info =>
      setupLoop env root (assignmentDir root assignment) info.dependencies inputs force

/-- Result of `cmd_test`: either the function itself calls `sys.exit n`
(missing assignment directory or gradle wrapper), or it returns its
boolean success value. -/
inductive TestResult where
  | sysExit (n : Nat)
  | ret (success : Bool)
deriving Repr, DecidableEq

/-- `cmd_test` (helper.py lines 343-409). `run` is the child gradle
process's return code, `none` when launching or running it raises (then
the `except` branch returns `False`); `rc = 0` is success. -/
def cmd_test (dirExists wrapperExists : Bool) (run : Option Int) : TestResult :=
  if ¬ dirExists then .sysExit 1
  else if ¬ wrapperExists then .sysExit 1
  else
    match run with
    | none => .ret false
    | some rc => .ret (rc == 0)

/-- Observable effects of one `submit` run. -/
structure SubmitResult where
  exit : Option Nat
  packagerInvoked : Bool
  packageResult : Option PackageResult
deriving Repr, DecidableEq

/-- `cmd_submit` (helper.py lines 477-492): run the tests; a `sys.exit`
inside `cmd_test` propagates, a `False` return aborts with exit 1, and
only a `True` return reaches `cmd_package` (with the same assignment). -/
def cmd_submit (dirExists wrapperExists : Bool) (run : Option Int)
    (config? : Option Config) (metadata? : Option Metadata)
    (fs : FS) (root assignment : String) : SubmitResult :=
  match cmd_test dirExists wrapperExists run with
  | .sysExit n => ⟨some n, false, none⟩
  | .ret false => ⟨some 1, false, none⟩
  | .ret true =>
    let pr := cmd_package config? metadata? fs root assignment
    ⟨pr.exit, true, some pr⟩

/-- How the dispatched command's execution ends, as seen by `main`'s
`try` block: normal completion, a `sys.exit n` raised inside the command
(`SystemExit` is not an `Exception`, so it propagates), a
`KeyboardInterrupt`, or any other uncaught exception. -/
inductive CmdEvent where
  | done
  | sysExit (n : Nat)
  | interrupt
  | exn
deriving Repr, DecidableEq

/-- Final process outcome of `main`. -/
structure MainOutcome where
  exitCode : Nat
  printedCancelMsg : Bool
deriving Repr, DecidableEq

/-- The `try/except` tail of `main` (helper.py lines 558-580):
`KeyboardInterrupt` prints the cancellation message and calls
`sys.exit(1)`; any other exception prints an error and exits 1 (re-raised
under `--debug`, the interpreter still exiting non-zero); normal
completion exits 0. -/
def mainHandler (ev : CmdEvent) : MainOutcome :=
  match ev with
  | .done => ⟨0, false⟩
  | .sysExit n => ⟨n, false⟩
  | .interrupt => ⟨1, true⟩
  | .exn => ⟨1, false⟩

/-! Concrete fixtures used by witnesses and counterexamples. -/

/-- Example configuration (matches the spec's worked example). -/
def cfgEx : Config := ⟨"2021001", "Zhang", "/ws"⟩

/-- Example assignment info (the spec's A3 example). -/
def infoEx : AssignmentInfo :=
  ⟨"Dataflow Analysis", ["src/Solver.java"], [⟨"A2", "src/CFGBuilder.java"⟩]⟩

/-- Example metadata with the single assignment A3. -/
def mdEx : Metadata := [("A3", infoEx)]

/-- The empty filesystem. -/
def fsEmpty : FS := fun _ => none

/-- A filesystem holding exactly A3's submission file. -/
def fsEx : FS := fun p =>
  if p = "/ws/A3/tai-e/src/Solver.java" then some "solver-source" else none

/-- A setup environment where every path exists, every target counts as
git-modified, and every copy succeeds. -/
def envModEx : SetupEnv :=
  ⟨fun _ => true, fun _ => { status := "modified" }, fun _ => true⟩

/-- A setup environment where no path exists. -/
def envEx : SetupEnv :=
  ⟨fun _ => false, fun _ => { status := "unmodified" }, fun _ => true⟩

/-- Number of dependency entries whose status line reports a missing
source file or a failed copy — the entries counted in neither summary
counter. -/
def badSteps : List SetupStep → Nat
  | [] => 0
  | SetupStep.srcMissing :: rest => badSteps rest + 1
  | SetupStep.copyFailed :: rest => badSteps rest + 1
  | _ :: rest => badSteps rest

end Helper

namespace Helper

/-- C1: if at least one declared submission file is absent from the
assignment directory, `package` exits with status 1 and never creates or
overwrites the archive (no write to the zip path happens). -/
theorem package_missing_file_no_archive
    (config? : Option Config) (metadata : Metadata) (fs : FS)
    (root assignment : String) (info : AssignmentInfo) (rel : String)
    (hmd : lookupA metadata assignment = some info)
    (hmem : rel ∈ info.files_to_submit)
    (habs : fs (assignmentDir root assignment ++ "/" ++ rel) = none) :
    (cmd_package config? (some metadata) fs root assignment).exit = some 1 ∧
    (cmd_package config? (some metadata) fs root assignment).archiveWritten = none := by
  cases config? with
  | none => exact ⟨rfl, rfl⟩
  | some cfg =>
    have hmem' : (rel, fs (assignmentDir root assignment ++ "/" ++ rel)) ∈
        info.files_to_submit.map
          (fun r => (r, fs (assignmentDir root assignment ++ "/" ++ r))) :=
      List.mem_map_of_mem _ hmem
    have hne : (info.files_to_submit.map
          (fun r => (r, fs (assignmentDir root assignment ++ "/" ++ r)))).filter
          (fun p => p.2.isNone) ≠ [] := by
      intro hnil
      have hall := List.filter_eq_nil_iff.mp hnil _ hmem'
      rw [habs] at hall
      simp at hall
    have hfalse : ((((info.files_to_submit.map
        (fun r => (r, fs (assignmentDir root assignment ++ "/" ++ r)))).filter
        (fun p => p.2.isNone)).map Prod.fst).isEmpty) = false := by
      rw [List.isEmpty_eq_false, Ne, List.map_eq_nil_iff]
      exact hne
    simp only [cmd_package, hmd, hfalse]
    exact ⟨rfl, rfl⟩

/-- Witness for C1 at the A3 fixture with an empty filesystem. -/
theorem package_missing_file_no_archive_witness :
    (lookupA mdEx "A3" = some infoEx ∧ "src/Solver.java" ∈ infoEx.files_to_submit ∧
      fsEmpty (assignmentDir "/ws" "A3" ++ "/" ++ "src/Solver.java") = none) ∧
    ((cmd_package (some cfgEx) (some mdEx) fsEmpty "/ws" "A3").exit = some 1 ∧
      (cmd_package (some cfgEx) (some mdEx) fsEmpty "/ws" "A3").archiveWritten = none) :=
  ⟨⟨by decide, by decide, rfl⟩,
    package_missing_file_no_archive (some cfgEx) mdEx fsEmpty "/ws" "A3" infoEx
      "src/Solver.java" (by decide) (by decide) rfl⟩

/-- C5 counterexample: packaging A3 against an empty filesystem aborts for
the missing submission file, yet the output directory has already been
created — the claim that an aborting run makes no change to the output
directory is false. -/
theorem package_outdir_counterexample :
    (cmd_package (some cfgEx) (some mdEx) fsEmpty "/ws" "A3").exit = some 1 ∧
    (cmd_package (some cfgEx) (some mdEx) fsEmpty "/ws" "A3").outputDirCreated = true := by
  constructor <;> rfl

/-- C5 (amended): `package` creates the output directory before verifying
the submission files, so every run that reaches the file check (config,
metadata and assignment id valid) creates the output directory — in
particular a run that aborts because a submission file is missing still
creates it, though it writes no archive. -/
theorem package_outdir_created_before_check
    (cfg : Config) (metadata : Metadata) (fs : FS)
    (root assignment : String) (info : AssignmentInfo) (rel : String)
    (hmd : lookupA metadata assignment = some info)
    (hmem : rel ∈ info.files_to_submit)
    (habs : fs (assignmentDir root assignment ++ "/" ++ rel) = none) :
    (cmd_package (some cfg) (some metadata) fs root assignment).outputDirCreated = true ∧
    (cmd_package (some cfg) (some metadata) fs root assignment).archiveWritten = none := by
  have hmem' : (rel, fs (assignmentDir root assignment ++ "/" ++ rel)) ∈
      info.files_to_submit.map
        (fun r => (r, fs (assignmentDir root assignment ++ "/" ++ r))) :=
    List.mem_map_of_mem _ hmem
  have hne : (info.files_to_submit.map
        (fun r => (r, fs (assignmentDir root assignment ++ "/" ++ r)))).filter
        (fun p => p.2.isNone) ≠ [] := by
    intro hnil
    have hall := List.filter_eq_nil_iff.mp hnil _ hmem'
    rw [habs] at hall
    simp at hall
  have hfalse : ((((info.files_to_submit.map
      (fun r => (r, fs (assignmentDir root assignment ++ "/" ++ r)))).filter
      (fun p => p.2.isNone)).map Prod.fst).isEmpty) = false := by
    rw [List.isEmpty_eq_false, Ne, List.map_eq_nil_iff]
    exact hne
  simp only [cmd_package, hmd, hfalse]
  exact ⟨rfl, rfl⟩

/-- Witness for the amended C5 at the A3 fixture. -/
theorem package_outdir_created_before_check_witness :
    (lookupA mdEx "A3" = some infoEx ∧ "src/Solver.java" ∈ infoEx.files_to_submit ∧
      fsEmpty (assignmentDir "/ws" "A3" ++ "/" ++ "src/Solver.java") = none) ∧
    ((cmd_package (some cfgEx) (some mdEx) fsEmpty "/ws" "A3").outputDirCreated = true ∧
      (cmd_package (some cfgEx) (some mdEx) fsEmpty "/ws" "A3").archiveWritten = none) :=
  ⟨⟨by decide, by decide, rfl⟩,
    package_outdir_created_before_check cfgEx mdEx fsEmpty "/ws" "A3" infoEx
      "src/Solver.java" (by decide) (by decide) rfl⟩

/-- When every file is present, the collect-then-zip pipeline of
`cmd_package` yields one entry per declared file, named by its base name,
holding that file's content. -/
theorem package_entries_eq (g : String → Option String) :
    ∀ (l : List String), (∀ x ∈ l, (g x).isSome) →
      ((l.map fun rel => (rel, g rel)).filterMap fun p => p.2.map fun c => (p.1, c)).map
          (fun p => (basename p.1, p.2))
        = l.map fun rel => (basename rel, (g rel).getD "") := by
  intro l
  induction l with
  | nil => intro _; rfl
  | cons x xs ih =>
    intro h
    obtain ⟨c, hc⟩ := Option.isSome_iff_exists.mp (h x (List.mem_cons_self x xs))
    have ihx := ih (fun y hy => h y (List.mem_cons_of_mem x hy))
    simp only [List.map_cons, List.filterMap_cons, hc, Option.map_some', Option.getD_some]
    exact congrArg _ ihx

/-- C6: a successful `package` run writes the archive
`{student_id}-{student_name}-{assignment}.zip` with exactly one entry per
declared submission file, each named by its base name and holding the
source file's content at invocation time. -/
theorem package_success_archive
    (cfg : Config) (metadata : Metadata) (fs : FS) (root assignment : String)
    (info : AssignmentInfo)
    (hmd : lookupA metadata assignment = some info)
    (hall : ∀ rel ∈ info.files_to_submit,
        (fs (assignmentDir root assignment ++ "/" ++ rel)).isSome) :
    (cmd_package (some cfg) (some metadata) fs root assignment).exit = none ∧
    (cmd_package (some cfg) (some metadata) fs root assignment).archiveWritten =
      some (cfg.student_id ++ "-" ++ cfg.student_name ++ "-" ++ assignment ++ ".zip",
        info.files_to_submit.map (fun rel =>
          (basename rel,
            (fs (assignmentDir root assignment ++ "/" ++ rel)).getD ""))) := by
  have hnil : (info.files_to_submit.map
      (fun r => (r, fs (assignmentDir root assignment ++ "/" ++ r)))).filter
      (fun p => p.2.isNone) = [] := by
    apply List.filter_eq_nil_iff.mpr
    intro p hp
    obtain ⟨r, hr, hpr⟩ := List.mem_map.mp hp
    subst hpr
    simp only [Option.isNone_iff_eq_none]
    intro hno
    have := hall r hr
    rw [hno] at this
    simp at this
  have htrue : ((((info.files_to_submit.map
      (fun r => (r, fs (assignmentDir root assignment ++ "/" ++ r)))).filter
      (fun p => p.2.isNone)).map Prod.fst).isEmpty) = true := by
    rw [hnil]; rfl
  simp only [cmd_package, hmd, htrue]
  refine ⟨rfl, ?_⟩
  simp only [if_true]
  rw [package_entries_eq (fun r => fs (assignmentDir root assignment ++ "/" ++ r))
    info.files_to_submit hall]

/-- Witness for C6 at the A3 fixture with the submission file present. -/
theorem package_success_archive_witness :
    (lookupA mdEx "A3" = some infoEx ∧
      (∀ rel ∈ infoEx.files_to_submit,
        (fsEx (assignmentDir "/ws" "A3" ++ "/" ++ rel)).isSome)) ∧
    ((cmd_package (some cfgEx) (some mdEx) fsEx "/ws" "A3").exit = none ∧
      (cmd_package (some cfgEx) (some mdEx) fsEx "/ws" "A3").archiveWritten =
        some (cfgEx.student_id ++ "-" ++ cfgEx.student_name ++ "-" ++ "A3" ++ ".zip",
          infoEx.files_to_submit.map (fun rel =>
            (basename rel,
              (fsEx (assignmentDir "/ws" "A3" ++ "/" ++ rel)).getD "")))) :=
  ⟨⟨by decide, by decide⟩,
    package_success_archive cfgEx mdEx fsEx "/ws" "A3" infoEx (by decide) (by decide)⟩

/-- C2: `submit` invokes the Packager exactly when `cmd_test` returns
success; a non-zero child exit code, or a failure to execute the tests at
all (`run = none`), makes `submit` abort with exit status 1 without
invoking the Packager. -/
theorem submit_invokes_packager_iff_tests_pass
    (dirExists wrapperExists : Bool) (run : Option Int)
    (config? : Option Config) (metadata? : Option Metadata) (fs : FS)
    (root assignment : String) :
    ((cmd_submit dirExists wrapperExists run config? metadata? fs
        root assignment).packagerInvoked = true
      ↔ cmd_test dirExists wrapperExists run = .ret true) ∧
    (∀ rc : Int, run = some rc → rc ≠ 0 →
      (cmd_submit dirExists wrapperExists run config? metadata? fs
          root assignment).exit = some 1 ∧
        (cmd_submit dirExists wrapperExists run config? metadata? fs
          root assignment).packagerInvoked = false) ∧
    (run = none →
      (cmd_submit dirExists wrapperExists run config? metadata? fs
          root assignment).exit = some 1 ∧
        (cmd_submit dirExists wrapperExists run config? metadata? fs
          root assignment).packagerInvoked = false) := by
  refine ⟨?_, ?_, ?_⟩
  · cases dirExists <;> cases wrapperExists <;>
      (cases run with
        | none => simp [cmd_submit, cmd_test]
        | some rc =>
          cases hb : (rc == 0) <;> simp [cmd_submit, cmd_test, hb])
  · intro rc hrc hne
    subst hrc
    have hb : (rc == 0) = false := by
      simp only [beq_eq_false_iff_ne, Ne]
      exact hne
    cases dirExists <;> cases wrapperExists <;>
      simp [cmd_submit, cmd_test, hb]
  · intro hrun
    subst hrun
    cases dirExists <;> cases wrapperExists <;>
      simp [cmd_submit, cmd_test]

/-- Witness for C2 at a concrete failing run (child exit code 2). -/
theorem submit_invokes_packager_iff_tests_pass_witness :
    ((some 2 : Option Int) = some 2 ∧ (2 : Int) ≠ 0) ∧
    ((cmd_submit true true (some 2) (some cfgEx) (some mdEx) fsEx
        "/ws" "A3").exit = some 1 ∧
      (cmd_submit true true (some 2) (some cfgEx) (some mdEx) fsEx
        "/ws" "A3").packagerInvoked = false) :=
  ⟨⟨rfl, by decide⟩,
    (submit_invokes_packager_iff_tests_pass true true (some 2) (some cfgEx)
      (some mdEx) fsEx "/ws" "A3").2.1 2 rfl (by decide)⟩

/-- C3 counterexample: for the unknown assignment id A9, `setup` and
`package` exit with status 1 but do not print the list of valid
assignment ids (only `info` does), refuting the claim that all three
commands list the valid ids. -/
theorem invalid_id_no_list_counterexample :
    lookupA mdEx "A9" = none ∧
    (cmd_setup (some mdEx) envEx "/ws" "A9" false []).exit = some 1 ∧
    (cmd_setup (some mdEx) envEx "/ws" "A9" false []).printedValidIds = false ∧
    (cmd_package (some cfgEx) (some mdEx) fsEmpty "/ws" "A9").exit = some 1 ∧
    (cmd_package (some cfgEx) (some mdEx) fsEmpty "/ws" "A9").printedValidIds = false := by
  refine ⟨by decide, rfl, rfl, rfl, rfl⟩

/-- C3 (amended): for every assignment id not in the metadata, `info`,
`setup` and `package` all exit with status 1, but only `info` prints the
list of valid assignment ids; `setup` and `package` print just the
invalid-assignment error. -/
theorem invalid_id_behavior
    (metadata : Metadata) (env : SetupEnv) (config? : Option Config) (fs : FS)
    (root assignment : String) (force : Bool) (inputs : List String)
    (hinv : lookupA metadata assignment = none) :
    cmd_info (some metadata) assignment = ⟨some 1, true⟩ ∧
    cmd_setup (some metadata) env root assignment force inputs = ⟨some 1, 0, 0, [], false⟩ ∧
    (cmd_package config? (some metadata) fs root assignment).exit = some 1 ∧
    (cmd_package config? (some metadata) fs root assignment).printedValidIds = false := by
  refine ⟨?_, ?_, ?_, ?_⟩
  · simp [cmd_info, hinv]
  · simp [cmd_setup, hinv]
  · cases config? <;> simp [cmd_package, hinv]
  · cases config? <;> simp [cmd_package, hinv]

/-- Witness for the amended C3 at the unknown id A9. -/
theorem invalid_id_behavior_witness :
    lookupA mdEx "A9" = none ∧
    (cmd_info (some mdEx) "A9" = ⟨some 1, true⟩ ∧
      cmd_setup (some mdEx) envEx "/ws" "A9" false [] = ⟨some 1, 0, 0, [], false⟩ ∧
      (cmd_package (some cfgEx) (some mdEx) fsEmpty "/ws" "A9").exit = some 1 ∧
      (cmd_package (some cfgEx) (some mdEx) fsEmpty "/ws" "A9").printedValidIds = false) :=
  ⟨by decide,
    invalid_id_behavior mdEx envEx (some cfgEx) fsEmpty "/ws" "A9" false [] (by decide)⟩

/-- C4: classification of `check_git_status` — empty stdout is
`unmodified`; a modified marker is `modified` whenever the follow-up log
call completes (best-effort fields), and the fallback when it raises; an
untracked marker is `untracked`; any other non-empty output is `unknown`;
a raising status call falls back to `unknown` with a non-empty
relative-age string when the file exists and with no time field when it
does not. -/
theorem check_git_status_classification
    (statusRun logRun : Option String) (fileExists : Bool) (days_ago : Int) :
    (statusRun = none →
      check_git_status statusRun logRun fileExists days_ago
        = gitFallback fileExists days_ago) ∧
    (∀ out, statusRun = some out → pyStrip out = "" →
      check_git_status statusRun logRun fileExists days_ago
        = { status := "unmodified" }) ∧
    (∀ out, statusRun = some out → pyStrip out ≠ "" →
      (pyStartsWith (pyStrip out) " M" || pyStartsWith (pyStrip out) "M ") = true →
      ((∀ l, logRun = some l →
          (check_git_status statusRun logRun fileExists days_ago).status = "modified") ∧
        (logRun = none →
          check_git_status statusRun logRun fileExists days_ago
            = gitFallback fileExists days_ago))) ∧
    (∀ out, statusRun = some out → pyStrip out ≠ "" →
      (pyStartsWith (pyStrip out) " M" || pyStartsWith (pyStrip out) "M ") = false →
      pyStartsWith (pyStrip out) "??" = true →
      check_git_status statusRun logRun fileExists days_ago
        = { status := "untracked" }) ∧
    (∀ out, statusRun = some out → pyStrip out ≠ "" →
      (pyStartsWith (pyStrip out) " M" || pyStartsWith (pyStrip out) "M ") = false →
      pyStartsWith (pyStrip out) "??" = false →
      check_git_status statusRun logRun fileExists days_ago
        = { status := "unknown" }) ∧
    (fileExists = true →
      gitFallback fileExists days_ago
          = { status := "unknown", time := some (relAgeStr days_ago) } ∧
        relAgeStr days_ago ≠ "") ∧
    (fileExists = false → gitFallback fileExists days_ago = { status := "unknown" }) := by
  refine ⟨?_, ?_, ?_, ?_, ?_, ?_, ?_⟩
  · intro h; subst h; rfl
  · intro out h he; subst h; simp [check_git_status, he]
  · intro out h hne hM
    subst h
    refine ⟨?_, ?_⟩
    · intro l hl
      subst hl
      simp only [check_git_status]
      rw [if_neg hne, hM, if_pos rfl]
      split
      · split <;> rfl
      · rfl
    · intro hl
      subst hl
      simp only [check_git_status]
      rw [if_neg hne, hM, if_pos rfl]
  · intro out h hne hM hU
    subst h
    simp only [check_git_status]
    rw [if_neg hne, hM, if_neg (by simp), hU, if_pos rfl]
  · intro out h hne hM hU
    subst h
    simp only [check_git_status]
    rw [if_neg hne, hM, if_neg (by simp), hU, if_neg (by simp)]
  · intro hfe
    subst hfe
    refine ⟨rfl, ?_⟩
    intro hcon
    have hlen : (relAgeStr days_ago).length = 0 := by rw [hcon]; rfl
    unfold relAgeStr at hlen
    by_cases h0 : days_ago = 0
    · rw [if_pos h0] at hlen; exact absurd hlen (by decide)
    · rw [if_neg h0] at hlen
      by_cases h1 : days_ago = 1
      · rw [if_pos h1] at hlen; exact absurd hlen (by decide)
      · rw [if_neg h1, String.length_append] at hlen
        have h9 : (" days ago" : String).length = 9 := rfl
        omega
  · intro hfe; subst hfe; rfl

/-- Witness for C4 at empty porcelain output. -/
theorem check_git_status_classification_witness :
    ((some "" : Option String) = some "" ∧ pyStrip "" = "") ∧
    check_git_status (some "") none true 0 = { status := "unmodified" } :=
  ⟨⟨rfl, by decide⟩,
    (check_git_status_classification (some "") none true 0).2.1 "" rfl (by decide)⟩

/-- C7: when the prompt for a modified target file receives the quit
choice, setup exits immediately with status 0; the result is independent
of the remaining dependency entries and of any further input, so no
further entry is processed. -/
theorem setup_quit_aborts
    (env : SetupEnv) (root targetDir : String) (dep : Dependency)
    (rest : List Dependency) (inputs : List String)
    (hsrc : env.pathExists (assignmentDir root dep.from_ ++ "/" ++ dep.file) = true)
    (htgt : env.pathExists (targetDir ++ "/" ++ dep.file) = true)
    (hmod : (env.gitStatus (targetDir ++ "/" ++ dep.file)).status = "modified")
    (hq : pyStrip (pyLower (inputs.headD "")) = "q") :
    setupLoop env root targetDir (dep :: rest) inputs false
      = ⟨some 0, 0, 0, [SetupStep.quit], false⟩ := by
  have hq' : pyStrip (pyLower (inputs.head?.getD "")) = "q" := by
    simpa using hq
  have hch : decodeChoice (inputs.head?.getD "") = SetupChoice.quit := by
    simp [decodeChoice, hq']
  simp [setupLoop, hsrc, htgt, hmod, hch]

/-- Witness for C7: quitting at the first of two entries. -/
theorem setup_quit_aborts_witness :
    (envModEx.pathExists (assignmentDir "/ws" "A2" ++ "/" ++ "src/CFGBuilder.java") = true ∧
      envModEx.pathExists ("/ws/A3/tai-e" ++ "/" ++ "src/CFGBuilder.java") = true ∧
      (envModEx.gitStatus ("/ws/A3/tai-e" ++ "/" ++ "src/CFGBuilder.java")).status
        = "modified" ∧
      pyStrip (pyLower ((["q", "y"] : List String).headD "")) = "q") ∧
    setupLoop envModEx "/ws" "/ws/A3/tai-e"
        (⟨"A2", "src/CFGBuilder.java"⟩ :: [⟨"A2", "src/Other.java"⟩]) ["q", "y"] false
      = ⟨some 0, 0, 0, [SetupStep.quit], false⟩ :=
  ⟨⟨by decide, by decide, by decide, by decide⟩,
    setup_quit_aborts envModEx "/ws" "/ws/A3/tai-e" ⟨"A2", "src/CFGBuilder.java"⟩
      [⟨"A2", "src/Other.java"⟩] ["q", "y"] (by decide) (by decide) (by decide) (by decide)⟩

/-- C8 counterexample: the top-level interrupt handler exits with status
1 — the same exit code `main` uses for fatal errors and uncaught
exceptions, and not the success code 0 — so an interrupt is reported as a
failure at the exit-code level, refuting "not treated as failure". -/
theorem interrupt_exit_counterexample :
    (mainHandler CmdEvent.interrupt).exitCode = 1 ∧
    (mainHandler CmdEvent.interrupt).exitCode ≠ 0 ∧
    (mainHandler CmdEvent.interrupt).exitCode = (mainHandler CmdEvent.exn).exitCode := by
  decide

/-- C8 (amended): a process-level interrupt is caught at the top level
and turned into a controlled exit that prints a cancellation message, but
the process exits with status 1, the same code as fatal errors, rather
than a clean (status 0) exit. -/
theorem interrupt_caught_with_message :
    mainHandler CmdEvent.interrupt = ⟨1, true⟩ ∧
    (mainHandler CmdEvent.interrupt).exitCode = (mainHandler CmdEvent.exn).exitCode := by
  decide

/-- C9: with a prior config present, both prompts are pre-filled with the
previous values and empty (or all-whitespace) input keeps them; a field
that ends up empty — empty input with no prior default — is a fatal
error (exit 1) with nothing saved; otherwise the full record of id, name
and workspace root is saved, fresh input overriding any prior value. -/
theorem config_behavior
    (existing? : Option (String × String)) (root idInput nameInput : String) :
    (∀ i n, existing? = some (i, n) → i ≠ "" → n ≠ "" →
      pyStrip idInput = "" → pyStrip nameInput = "" →
      cmd_config existing? root idInput nameInput
        = ⟨none, some ⟨i, n, root⟩,
            "Student ID [" ++ i ++ "]: ", "Student Name [" ++ n ++ "]: "⟩) ∧
    (((pyStrip idInput = "" ∧ (existing?.map Prod.fst).getD "" = "") ∨
        (pyStrip nameInput = "" ∧ (existing?.map Prod.snd).getD "" = "")) →
      (cmd_config existing? root idInput nameInput).exit = some 1 ∧
      (cmd_config existing? root idInput nameInput).saved = none) ∧
    (pyStrip idInput ≠ "" → pyStrip nameInput ≠ "" →
      (cmd_config existing? root idInput nameInput).exit = none ∧
      (cmd_config existing? root idInput nameInput).saved
        = some ⟨pyStrip idInput, pyStrip nameInput, root⟩) := by
  refine ⟨?_, ?_, ?_⟩
  · intro i n hex hi hn hid hname
    subst hex
    simp [cmd_config, hid, hname, hi, hn]
  · intro hcase
    rcases hcase with ⟨hid, hdef⟩ | ⟨hname, hdef⟩
    · constructor <;> simp [cmd_config, hid, hdef]
    · constructor <;> simp [cmd_config, hname, hdef]
  · intro hid hname
    constructor <;> simp [cmd_config, hid, hname]

/-- Witness for C9: re-run with a prior config and empty inputs keeps the
previous identity. -/
theorem config_behavior_witness :
    ((some ("2021001", "Zhang") : Option (String × String)) = some ("2021001", "Zhang") ∧
      ("2021001" : String) ≠ "" ∧ ("Zhang" : String) ≠ "" ∧
      pyStrip "" = "" ∧ pyStrip "" = "") ∧
    cmd_config (some ("2021001", "Zhang")) "/ws" "" ""
      = ⟨none, some ⟨"2021001", "Zhang", "/ws"⟩,
          "Student ID [2021001]: ", "Student Name [Zhang]: "⟩ :=
  ⟨⟨rfl, by decide, by decide, by decide, by decide⟩,
    (config_behavior (some ("2021001", "Zhang")) "/ws" "" "").1 "2021001" "Zhang" rfl
      (by decide) (by decide) (by decide) (by decide)⟩

/-- Adding any step in front never decreases the bad-step count. -/
theorem badSteps_cons_le (s : SetupStep) (rest : List SetupStep) :
    badSteps rest ≤ badSteps (s :: rest) := by
  cases s <;> simp [badSteps]

/-- A reported missing source or failed copy makes the bad-step count
positive. -/
theorem badSteps_pos (steps : List SetupStep)
    (h : SetupStep.srcMissing ∈ steps ∨ SetupStep.copyFailed ∈ steps) :
    1 ≤ badSteps steps := by
  induction steps with
  | nil => rcases h with h | h <;> simp at h
  | cons s rest ih =>
    by_cases hs : s = SetupStep.srcMissing ∨ s = SetupStep.copyFailed
    · rcases hs with rfl | rfl <;> simp [badSteps]
    · have hmem : SetupStep.srcMissing ∈ rest ∨ SetupStep.copyFailed ∈ rest := by
        rcases h with h | h
        · rcases List.mem_cons.mp h with rfl | hm
          · exact absurd (Or.inl rfl) hs
          · exact Or.inl hm
        · rcases List.mem_cons.mp h with rfl | hm
          · exact absurd (Or.inr rfl) hs
          · exact Or.inr hm
      exact le_trans (ih hmem) (badSteps_cons_le s rest)

/-- Loop invariant for `setupLoop`: copied + skipped + bad-step entries
never exceeds the number of dependency entries. -/
theorem setupLoop_counts_le (env : SetupEnv) (root targetDir : String) :
    ∀ (deps : List Dependency) (inputs : List String) (fa : Bool),
      (setupLoop env root targetDir deps inputs fa).copied
        + (setupLoop env root targetDir deps inputs fa).skipped
        + badSteps (setupLoop env root targetDir deps inputs fa).steps
        ≤ deps.length := by
  intro deps
  induction deps with
  | nil => intro inputs fa; simp [setupLoop, badSteps]
  | cons dep rest ih =>
    intro inputs fa
    simp only [setupLoop]
    split
    · split
      · simp [badSteps]
      · have h := ih (if ((env.pathExists (targetDir ++ "/" ++ dep.file)
            && ((env.gitStatus (targetDir ++ "/" ++ dep.file)).status == "modified")) && !fa)
            then inputs.tail else inputs) fa
        simp only [badSteps, List.length_cons]
        omega
      · split
        · have h := ih (if ((env.pathExists (targetDir ++ "/" ++ dep.file)
              && ((env.gitStatus (targetDir ++ "/" ++ dep.file)).status == "modified")) && !fa)
              then inputs.tail else inputs) true
          simp only [badSteps, List.length_cons]
          omega
        · have h := ih (if ((env.pathExists (targetDir ++ "/" ++ dep.file)
              && ((env.gitStatus (targetDir ++ "/" ++ dep.file)).status == "modified")) && !fa)
              then inputs.tail else inputs) true
          simp only [badSteps, List.length_cons]
          omega
      · split
        · have h := ih (if ((env.pathExists (targetDir ++ "/" ++ dep.file)
              && ((env.gitStatus (targetDir ++ "/" ++ dep.file)).status == "modified")) && !fa)
              then inputs.tail else inputs) fa
          simp only [badSteps, List.length_cons]
          omega
        · have h := ih (if ((env.pathExists (targetDir ++ "/" ++ dep.file)
              && ((env.gitStatus (targetDir ++ "/" ++ dep.file)).status == "modified")) && !fa)
              then inputs.tail else inputs) fa
          simp only [badSteps, List.length_cons]
          omega
    · have h := ih inputs fa
      simp only [badSteps, List.length_cons]
      omega

/-- C10: over a dependency list of length n, the Copied plus Skipped
counters of `setup` total at most n, and strictly less than n whenever
some entry reported a missing source file or a failed copy (such entries
are counted in neither total). -/
theorem setup_copied_skipped_bound
    (metadata : Metadata) (env : SetupEnv) (root assignment : String)
    (force : Bool) (inputs : List String) (info : AssignmentInfo)
    (hmd : lookupA metadata assignment = some info) :
    ((cmd_setup (some metadata) env root assignment force inputs).copied
        + (cmd_setup (some metadata) env root assignment force inputs).skipped
        ≤ info.dependencies.length) ∧
    ((SetupStep.srcMissing ∈ (cmd_setup (some metadata) env root assignment force inputs).steps
        ∨ SetupStep.copyFailed
            ∈ (cmd_setup (some metadata) env root assignment force inputs).steps) →
      (cmd_setup (some metadata) env root assignment force inputs).copied
        + (cmd_setup (some metadata) env root assignment force inputs).skipped
        < info.dependencies.length) := by
  have hcmd : cmd_setup (some metadata) env root assignment force inputs
      = setupLoop env root (assignmentDir root assignment) info.dependencies inputs force := by
    simp [cmd_setup, hmd]
  rw [hcmd]
  have h := setupLoop_counts_le env root (assignmentDir root assignment)
    info.dependencies inputs force
  constructor
  · omega
  · intro hmem
    have hb := badSteps_pos _ hmem
    omega

/-- Witness for C10: a single dependency whose source file is absent is
counted in neither total, making the sum strictly less than 1. -/
theorem setup_copied_skipped_bound_witness :
    (lookupA mdEx "A3" = some infoEx ∧
      SetupStep.srcMissing ∈ (cmd_setup (some mdEx) envEx "/ws" "A3" false []).steps) ∧
    ((cmd_setup (some mdEx) envEx "/ws" "A3" false []).copied
        + (cmd_setup (some mdEx) envEx "/ws" "A3" false []).skipped
        ≤ infoEx.dependencies.length ∧
      (cmd_setup (some mdEx) envEx "/ws" "A3" false []).copied
        + (cmd_setup (some mdEx) envEx "/ws" "A3" false []).skipped
        < infoEx.dependencies.length) :=
  ⟨⟨by decide, by decide⟩,
    (setup_copied_skipped_bound mdEx envEx "/ws" "A3" false [] infoEx (by decide)).1,
    (setup_copied_skipped_bound mdEx envEx "/ws" "A3" false [] infoEx (by decide)).2
      (Or.inl (by decide))⟩

end Helper
